import Mathlib

/-!
Verification of `redpanda321/eigent`, two units:

* `resources/example-skills/pdf/scripts/convert_pdf_to_images.py` — a CLI
  script that renders every PDF page to an image and downsizes images
  exceeding a maximum bounding dimension before saving them as PNGs.
* `backend/app/agent/factory/developer.py` — the developer-agent factory that
  assembles toolkits, a tool list and a system prompt, and calls the external
  agent constructor.

The external PDF rendering library (`pdf2image.convert_from_path`) is out of
scope; the script's own logic is modelled over the list of rendered page
sizes it returns.  Python's `/` on these small integer inputs is modelled by
exact rational division and `int(...)` on the nonnegative results by the
floor (Python `int` truncates toward zero, which on nonnegative values is
the floor).
-/

namespace PdfScript

/-- The per-page resize logic of `convert`
(`convert_pdf_to_images.py`, lines 28-32):

```
if width > max_dim or height > max_dim:
    scale_factor = min(max_dim / width, max_dim / height)
    new_width = int(width * scale_factor)
    new_height = int(height * scale_factor)
    image = image.resize((new_width, new_height))
```

Given `maxDim` and the rendered size `(w, h)` it returns the size of the
image that is saved. -/
def resizedDims (maxDim w h : ℕ) : ℕ × ℕ :=
  if maxDim < w ∨ maxDim < h then
    let scale : ℚ := min ((maxDim : ℚ) / w) ((maxDim : ℚ) / h)
    ((⌊(w : ℚ) * scale⌋).toNat, (⌊(h : ℚ) * scale⌋).toNat)
  else (w, h)

/-- One file written by `convert`: the output directory passed to
`os.path.join`, the file name, and the pixel size of the saved image. -/
structure SavedImage where
  dir : String
  name : String
  size : ℕ × ℕ
  deriving Repr, DecidableEq

/-- The `convert` function (lines 23-37), modelled over the list of page
sizes that `convert_from_path(pdf_path, dpi=200)` renders: for the `i`-th
page (0-based) it saves the possibly-resized image as `page_{i+1}.png` in
`outputDir`. -/
def convert (pages : List (ℕ × ℕ)) (outputDir : String) (maxDim : ℕ) :
    List SavedImage :=
  pages.enum.map fun p =>
    { dir := outputDir
      name := "page_" ++ toString (p.1 + 1) ++ ".png"
      size := resizedDims maxDim p.2.1 p.2.2 }

/-- The usage string printed on a wrong argument count (line 42). -/
def usageString : String :=
  "Usage: convert_pdf_to_images.py [input pdf] [output directory]"

/-- What the `__main__` block decides to do: either print the usage string
and exit with the given status, touching no file, or call
`convert(pdf_path, output_directory)`. -/
inductive MainAction where
  | usageExit (msg : String) (status : ℕ)
  | runConvert (pdfPath outputDir : String)
  deriving Repr, DecidableEq

/-- The `__main__` block (lines 40-46): `sys.argv` holds the script name
followed by the user arguments, so `len(sys.argv) != 3` rejects anything but
exactly two user arguments. -/
def mainModel (argv : List String) : MainAction :=
  if h : argv.length = 3 then
    .runConvert (argv.get ⟨1, by omega⟩) (argv.get ⟨2, by omega⟩)
  else
    .usageExit usageString 1

end PdfScript

namespace DeveloperFactory

/-- A tool exposed to the agent.  `messageIntegrated` records whether the
tool has been routed through the message-integration wrapper.

Modelled from the spec: the `FunctionTool` objects of the external `camel`
framework are opaque here; a tool is identified by its name, plus the flag
the wrapper toggles. -/
structure Tool where
  name : String
  messageIntegrated : Bool
  deriving Repr, DecidableEq

/-- A toolkit: a bundle of callable operations exposing a tool list.

Modelled from the spec: "Toolkit instance: a bundle of callable operations
scoped to one capability area"; its internal state is opaque here, so only
the exposed tool list is kept. -/
structure Toolkit where
  tools : List Tool
  deriving Repr, DecidableEq

/-- Modelled from the spec: `ToolkitMessageIntegration` wraps a tool "so its
tool calls can also emit user-visible messages"; the wrapped tool is the
same tool, message-integrated.  The wrapper neither drops nor adds tools. -/
def wrapTool (t : Tool) : Tool :=
  { t with messageIntegrated := true }

/-- Modelled from the spec: `message_integration.register_toolkits(tk)`
returns the toolkit with every exposed tool wrapped (step 3 of the factory:
"message-integration decorator pattern"). -/
def registerToolkits (tk : Toolkit) : Toolkit :=
  { tk with tools := tk.tools.map wrapTool }

/-- Modelled from the spec: `message_integration.register_functions(ts)`
wraps a bare list of tools the same way. -/
def registerFunctions (ts : List Tool) : List Tool :=
  ts.map wrapTool

/-- The inputs of `developer_agent` that come from code outside `src/`: the
tool lists each instantiated toolkit exposes, the toolkit display names, and
the search configuration.

Modelled from the spec: the toolkit constructors
(`HumanToolkit`, `NoteTakingToolkit`, `WebDeployToolkit`, `TerminalToolkit`,
`ScreenshotToolkit`, `SkillToolkit`, `SearchToolkit`) live in
`app/agent/toolkit/*`, which is not under `src/`; each is abstracted by the
tool list it exposes.  `SearchToolkit.get_can_use_tools` returns the search
tools only when the external configuration enables search, and an empty
list otherwise, captured by `searchEnabled` and `searchTools`. -/
structure ToolkitEnv where
  humanTools : List Tool
  noteTools : List Tool
  webDeployTools : List Tool
  terminalTools : List Tool
  screenshotTools : List Tool
  skillTools : List Tool
  searchEnabled : Bool
  searchTools : List Tool
  humanName : String
  terminalName : String
  noteName : String
  webDeployName : String
  screenshotName : String
  skillName : String
  searchName : String
  deriving Repr, DecidableEq

/-- Modelled from the spec: `SearchToolkit.get_can_use_tools(...)` fetches
the search tool set "only if the external configuration enables it; empty
list otherwise". -/
def searchGetCanUseTools (env : ToolkitEnv) : List Tool :=
  if env.searchEnabled then env.searchTools else []

/-- Lines 87-93 of `developer.py`:

```
search_tools = SearchToolkit.get_can_use_tools(...)
if search_tools:
    search_tools = message_integration.register_functions(search_tools)
else:
    search_tools = []
```

(Python truthiness of a list is non-emptiness.) -/
def searchContribution (env : ToolkitEnv) : List Tool :=
  let searchTools := searchGetCanUseTools env
  if searchTools.isEmpty then [] else registerFunctions searchTools

/-- The `tools` list assembled at lines 95-105 of `developer.py`: the human
toolkit's tools (not wrapped), then the wrapped note, web-deploy, terminal,
screenshot and skill toolkits' tools, then the search contribution. -/
def developerTools (env : ToolkitEnv) : List Tool :=
  env.humanTools
    ++ (registerToolkits { tools := env.noteTools }).tools
    ++ (registerToolkits { tools := env.webDeployTools }).tools
    ++ (registerToolkits { tools := env.terminalTools }).tools
    ++ (registerToolkits { tools := env.screenshotTools }).tools
    ++ (registerToolkits { tools := env.skillTools }).tools
    ++ searchContribution env

/-- One piece of the system prompt template: either a literal chunk or one
of the four placeholders `{platform_system}`, `{platform_machine}`,
`{working_directory}`, `{now_str}`.

Modelled from the spec: `DEVELOPER_SYS_PROMPT` lives in
`app/agent/prompt`, which is not under `src/`; only its placeholder shape
is given by the spec. -/
inductive TemplatePart where
  | lit (s : String)
  | phPlatformSystem
  | phPlatformMachine
  | phWorkingDirectory
  | phNowStr
  deriving Repr, DecidableEq

/-- What one template part renders to under `str.format(...)`. -/
def renderPart (sys mach wd now : String) : TemplatePart → String
  | .lit s => s
  | .phPlatformSystem => sys
  | .phPlatformMachine => mach
  | .phWorkingDirectory => wd
  | .phNowStr => now

/-- `DEVELOPER_SYS_PROMPT.format(platform_system=..., platform_machine=...,
working_directory=..., now_str=...)` (lines 106-111): every placeholder is
replaced by its value, literal chunks are kept. -/
def renderTemplate (tpl : List TemplatePart) (sys mach wd now : String) :
    String :=
  match tpl with
  | [] => ""
  | p :: rest => renderPart sys mach wd now p ++ renderTemplate rest sys mach wd now

/-- The chat/task context the factory consumes: project identifier, resolved
working directory and skill-config user id (section 3 of the spec,
"read-only input to the factory"). -/
structure ChatOptions where
  projectId : String
  workingDirectory : String
  skillConfigUserId : String
  deriving Repr, DecidableEq

/-- `BaseMessage.make_assistant_message(role_name=..., content=...)`:
only the two fields this factory sets are modelled. -/
structure BaseMessage where
  roleName : String
  content : String
  deriving Repr, DecidableEq

/-- Modelled from the spec: `agent_model` is the external agent constructor;
the agent object is represented by the arguments the factory passes to it
(registry key, assistant message, context, tool list, toolkit names, and
the toolkits needing post-hoc registration). -/
structure AgentSpec where
  registryKey : String
  message : BaseMessage
  options : ChatOptions
  tools : List Tool
  toolNames : List String
  toolkitsToRegisterAgent : List Toolkit
  deriving Repr, DecidableEq

/-- The fixed registry key `Agents.developer_agent`. -/
def developerAgentKey : String := "developer_agent"

/-- `developer_agent(options)` (lines 37-133 of `developer.py`): builds the
toolkits (abstracted by `env`), assembles `tools`, renders the system
prompt from the template `tpl` with the current `platform.system()`,
`platform.machine()`, working directory and `NOW_STR` values, and calls
`agent_model`.  The screenshot toolkit reference is saved before wrapping
(line 64), and that unwrapped instance is what is passed in
`toolkits_to_register_agent`. -/
def developerAgent (options : ChatOptions) (env : ToolkitEnv)
    (tpl : List TemplatePart) (sys mach now : String) : AgentSpec :=
  let screenshotToolkitForAgentRegistration : Toolkit :=
    { tools := env.screenshotTools }
  let tools := developerTools env
  let systemMessage :=
    renderTemplate tpl sys mach options.workingDirectory now
  { registryKey := developerAgentKey
    message := { roleName := "Developer Agent", content := systemMessage }
    options := options
    tools := tools
    toolNames :=
      [env.humanName, env.terminalName, env.noteName, env.webDeployName,
       env.screenshotName, env.skillName, env.searchName]
    toolkitsToRegisterAgent := [screenshotToolkitForAgentRegistration] }

/-- A small concrete toolkit environment used to exercise the factory
theorems on explicit inputs. -/
def sampleEnv : ToolkitEnv where
  humanTools := [{ name := "ask_human_via_console", messageIntegrated := false }]
  noteTools := [{ name := "append_note", messageIntegrated := false },
                { name := "read_note", messageIntegrated := false }]
  webDeployTools := [{ name := "deploy_folder", messageIntegrated := false }]
  terminalTools := [{ name := "shell_exec", messageIntegrated := false }]
  screenshotTools := [{ name := "take_screenshot", messageIntegrated := false }]
  skillTools := [{ name := "list_skills", messageIntegrated := false }]
  searchEnabled := true
  searchTools := [{ name := "search_web", messageIntegrated := false }]
  humanName := "Human Toolkit"
  terminalName := "Terminal Toolkit"
  noteName := "Note Taking Toolkit"
  webDeployName := "Web Deploy Toolkit"
  screenshotName := "Screenshot Toolkit"
  skillName := "Skill Toolkit"
  searchName := "Search Toolkit"

/-- `sampleEnv` with search disabled by the external configuration. -/
def sampleEnvNoSearch : ToolkitEnv :=
  { sampleEnv with searchEnabled := false }

/-- A concrete chat context used to exercise the factory theorems. -/
def sampleOptions : ChatOptions where
  projectId := "proj-1"
  workingDirectory := "/home/user/project"
  skillConfigUserId := "user-1"

end DeveloperFactory

namespace PdfScript

/-- **C3.** For every page whose rendered width and height are both at most
`max_dim`, the branch at lines 28-32 of `convert_pdf_to_images.py` is not
taken, so the saved image keeps the original rendered size: no resize is
applied. -/
theorem convert_no_resize_when_small (maxDim w h : ℕ)
    (hw : w ≤ maxDim) (hh : h ≤ maxDim) :
    resizedDims maxDim w h = (w, h) := by
  rw [resizedDims, if_neg]
  push_neg
  exact ⟨hw, hh⟩

/-- Witness for C3 at the concrete rendered size 800 × 600 with the default
`max_dim = 1000`. -/
theorem convert_no_resize_when_small_witness :
    resizedDims 1000 800 600 = (800, 600) :=
  convert_no_resize_when_small 1000 800 600 (by decide) (by decide)

/-- **C2.** `convert` saves exactly one file per rendered page, the `i`-th
page (0-based) under the name `page_{i+1}.png`, in the given output
directory, whatever the page sizes are. -/
theorem convert_output_count_and_names (pages : List (ℕ × ℕ))
    (outputDir : String) (maxDim : ℕ) :
    (convert pages outputDir maxDim).length = pages.length ∧
    ∀ i (hi : i < (convert pages outputDir maxDim).length),
      ((convert pages outputDir maxDim).get ⟨i, hi⟩).name =
          "page_" ++ toString (i + 1) ++ ".png" ∧
        ((convert pages outputDir maxDim).get ⟨i, hi⟩).dir = outputDir := by
  refine ⟨by simp [convert], ?_⟩
  intro i hi
  simp [convert]

/-- Witness for C2: a two-page document produces `page_1.png` and
`page_2.png` in the requested directory. -/
theorem convert_output_count_and_names_witness :
    (convert [(300, 200), (1500, 800)] "out" 1000).length = 2 ∧
    ((convert [(300, 200), (1500, 800)] "out" 1000).get
        ⟨1, by simp [convert]⟩).name = "page_2.png" := by
  have h := convert_output_count_and_names [(300, 200), (1500, 800)] "out" 1000
  refine ⟨h.1.trans (by rfl), ?_⟩
  have h2 := (h.2 1 (by simp [convert])).1
  simpa using h2

/-- **C5.** The `__main__` block: with anything other than exactly two user
arguments (so `len(sys.argv) != 3`), the script prints the usage string and
exits with status 1, reaching no file I/O; with exactly two user arguments
it calls `convert` on them. -/
theorem main_argument_check (prog : String) (args : List String) :
    (args.length ≠ 2 →
      mainModel (prog :: args) = .usageExit usageString 1) ∧
    ∀ pdf out, args = [pdf, out] →
      mainModel (prog :: args) = .runConvert pdf out := by
  constructor
  · intro hne
    rw [mainModel, dif_neg]
    simp only [List.length_cons]
    omega
  · rintro pdf out rfl
    rfl

/-- Witness for C5: zero user arguments exit with the usage string, two user
arguments run the conversion. -/
theorem main_argument_check_witness :
    mainModel ["convert_pdf_to_images.py"] = .usageExit usageString 1 ∧
    mainModel ["convert_pdf_to_images.py", "in.pdf", "outdir"] =
      .runConvert "in.pdf" "outdir" :=
  ⟨(main_argument_check "convert_pdf_to_images.py" []).1 (by decide),
   (main_argument_check "convert_pdf_to_images.py" ["in.pdf", "outdir"]).2
     "in.pdf" "outdir" rfl⟩

/-- The scale factor `min(max_dim / width, max_dim / height)` is
nonnegative. -/
theorem scaleFactor_nonneg (maxDim w h : ℕ) :
    0 ≤ min ((maxDim : ℚ) / w) ((maxDim : ℚ) / h) :=
  le_min (by positivity) (by positivity)

/-- When either rendered dimension exceeds `max_dim`, the scale factor is at
most 1. -/
theorem scaleFactor_le_one (maxDim w h : ℕ)
    (hbig : maxDim < w ∨ maxDim < h) :
    min ((maxDim : ℚ) / w) ((maxDim : ℚ) / h) ≤ 1 := by
  rcases hbig with hb | hb
  · refine le_trans (min_le_left _ _) ?_
    have hw0 : (0 : ℚ) < w := by
      exact_mod_cast Nat.lt_of_le_of_lt (Nat.zero_le maxDim) hb
    rw [div_le_one hw0]
    exact_mod_cast hb.le
  · refine le_trans (min_le_right _ _) ?_
    have hh0 : (0 : ℚ) < h := by
      exact_mod_cast Nat.lt_of_le_of_lt (Nat.zero_le maxDim) hb
    rw [div_le_one hh0]
    exact_mod_cast hb.le

/-- When either rendered dimension exceeds `max_dim`, the resize branch is
taken and both dimensions are truncations of the uniformly scaled sizes. -/
theorem resizedDims_eq_of_big (maxDim w h : ℕ)
    (hbig : maxDim < w ∨ maxDim < h) :
    resizedDims maxDim w h =
      ((⌊(w : ℚ) * min ((maxDim : ℚ) / w) ((maxDim : ℚ) / h)⌋).toNat,
       (⌊(h : ℚ) * min ((maxDim : ℚ) / w) ((maxDim : ℚ) / h)⌋).toNat) := by
  rw [resizedDims, if_pos hbig]

/-- Truncating a rational bounded by `n` gives a natural number bounded by
`n`. -/
theorem floor_toNat_le_of_le (x : ℚ) (n : ℕ) (hx : x ≤ n) :
    (⌊x⌋).toNat ≤ n :=
  Int.toNat_le.2 ((Int.floor_mono hx).trans_eq (Int.floor_natCast n))

/-- Truncating a nonnegative rational moves it by strictly less than one. -/
theorem abs_floor_toNat_sub_lt_one (x : ℚ) (hx : 0 ≤ x) :
    |((⌊x⌋.toNat : ℚ)) - x| < 1 := by
  have h0 : (0 : ℤ) ≤ ⌊x⌋ := Int.floor_nonneg.2 hx
  have hcast : ((⌊x⌋.toNat : ℚ)) = (⌊x⌋ : ℚ) := by
    exact_mod_cast Int.toNat_of_nonneg h0
  rw [abs_lt, hcast]
  have h1 := Int.floor_le x
  have h2 := Int.lt_floor_add_one x
  constructor <;> linarith

/-- **C6.** On the resize branch the code applies the single scale factor
`min(max_dim / width, max_dim / height)` uniformly to both dimensions, and
the saved size never exceeds the rendered size: downsizing only. -/
theorem convert_scale_factor_uniform_downsizing (maxDim w h : ℕ)
    (hbig : maxDim < w ∨ maxDim < h) :
    resizedDims maxDim w h =
      ((⌊(w : ℚ) * min ((maxDim : ℚ) / w) ((maxDim : ℚ) / h)⌋).toNat,
       (⌊(h : ℚ) * min ((maxDim : ℚ) / w) ((maxDim : ℚ) / h)⌋).toNat) ∧
    (resizedDims maxDim w h).1 ≤ w ∧ (resizedDims maxDim w h).2 ≤ h := by
  have heq := resizedDims_eq_of_big maxDim w h hbig
  have hs1 := scaleFactor_le_one maxDim w h hbig
  refine ⟨heq, ?_, ?_⟩
  · rw [heq]
    exact floor_toNat_le_of_le _ _ (mul_le_of_le_one_right (by positivity) hs1)
  · rw [heq]
    exact floor_toNat_le_of_le _ _ (mul_le_of_le_one_right (by positivity) hs1)

/-- Witness for C6: a 2400 × 1800 page is only ever shrunk. -/
theorem convert_scale_factor_uniform_downsizing_witness :
    (resizedDims 1000 2400 1800).1 ≤ 2400 ∧
      (resizedDims 1000 2400 1800).2 ≤ 1800 :=
  ⟨(convert_scale_factor_uniform_downsizing 1000 2400 1800
      (Or.inl (by decide))).2.1,
   (convert_scale_factor_uniform_downsizing 1000 2400 1800
      (Or.inl (by decide))).2.2⟩

/-- **C1.** For a page with positive rendered dimensions of which at least
one exceeds `max_dim`, the saved image's larger dimension equals `max_dim`
exactly (so in particular within rounding), and each saved dimension is
within one pixel of the exact uniform rescaling of the rendered page, i.e.
the width-to-height aspect ratio is preserved to within one pixel. -/
theorem convert_resize_larger_dim_and_aspect (maxDim w h : ℕ)
    (hw : 0 < w) (hh : 0 < h) (hbig : maxDim < w ∨ maxDim < h) :
    max (resizedDims maxDim w h).1 (resizedDims maxDim w h).2 = maxDim ∧
    |((resizedDims maxDim w h).1 : ℚ) -
        (w : ℚ) * min ((maxDim : ℚ) / w) ((maxDim : ℚ) / h)| < 1 ∧
    |((resizedDims maxDim w h).2 : ℚ) -
        (h : ℚ) * min ((maxDim : ℚ) / w) ((maxDim : ℚ) / h)| < 1 := by
  have heq := resizedDims_eq_of_big maxDim w h hbig
  have hs0 := scaleFactor_nonneg maxDim w h
  have hw0 : (0 : ℚ) < w := by exact_mod_cast hw
  have hh0 : (0 : ℚ) < h := by exact_mod_cast hh
  refine ⟨?_, ?_, ?_⟩
  · rcases le_total h w with hwh | hwh
    · have hq : (h : ℚ) ≤ (w : ℚ) := by exact_mod_cast hwh
      have hmin : min ((maxDim : ℚ) / w) ((maxDim : ℚ) / h) =
          (maxDim : ℚ) / w := min_eq_left (by gcongr)
      have hws : (w : ℚ) * ((maxDim : ℚ) / w) = maxDim := by field_simp
      have h1 : (resizedDims maxDim w h).1 = maxDim := by
        rw [heq]
        show (⌊(w : ℚ) * min ((maxDim : ℚ) / w) ((maxDim : ℚ) / h)⌋).toNat =
          maxDim
        rw [hmin, hws, Int.floor_natCast, Int.toNat_natCast]
      have h2 : (resizedDims maxDim w h).2 ≤ maxDim := by
        rw [heq]
        show (⌊(h : ℚ) * min ((maxDim : ℚ) / w) ((maxDim : ℚ) / h)⌋).toNat ≤
          maxDim
        refine floor_toNat_le_of_le _ _ ?_
        calc (h : ℚ) * min ((maxDim : ℚ) / w) ((maxDim : ℚ) / h)
            ≤ (w : ℚ) * min ((maxDim : ℚ) / w) ((maxDim : ℚ) / h) :=
              mul_le_mul_of_nonneg_right hq hs0
          _ = maxDim := by rw [hmin, hws]
      rw [h1]
      exact max_eq_left h2
    · have hq : (w : ℚ) ≤ (h : ℚ) := by exact_mod_cast hwh
      have hmin : min ((maxDim : ℚ) / w) ((maxDim : ℚ) / h) =
          (maxDim : ℚ) / h := min_eq_right (by gcongr)
      have hhs : (h : ℚ) * ((maxDim : ℚ) / h) = maxDim := by field_simp
      have h2 : (resizedDims maxDim w h).2 = maxDim := by
        rw [heq]
        show (⌊(h : ℚ) * min ((maxDim : ℚ) / w) ((maxDim : ℚ) / h)⌋).toNat =
          maxDim
        rw [hmin, hhs, Int.floor_natCast, Int.toNat_natCast]
      have h1 : (resizedDims maxDim w h).1 ≤ maxDim := by
        rw [heq]
        show (⌊(w : ℚ) * min ((maxDim : ℚ) / w) ((maxDim : ℚ) / h)⌋).toNat ≤
          maxDim
        refine floor_toNat_le_of_le _ _ ?_
        calc (w : ℚ) * min ((maxDim : ℚ) / w) ((maxDim : ℚ) / h)
            ≤ (h : ℚ) * min ((maxDim : ℚ) / w) ((maxDim : ℚ) / h) :=
              mul_le_mul_of_nonneg_right hq hs0
          _ = maxDim := by rw [hmin, hhs]
      rw [h2]
      exact max_eq_right h1
  · rw [heq]
    exact abs_floor_toNat_sub_lt_one _ (mul_nonneg hw0.le hs0)
  · rw [heq]
    exact abs_floor_toNat_sub_lt_one _ (mul_nonneg hh0.le hs0)

/-- Witness for C1: a 1500 × 800 page is saved with its larger dimension
exactly 1000. -/
theorem convert_resize_larger_dim_and_aspect_witness :
    max (resizedDims 1000 1500 800).1 (resizedDims 1000 1500 800).2 = 1000 :=
  (convert_resize_larger_dim_and_aspect 1000 1500 800 (by decide) (by decide)
    (Or.inl (by decide))).1

/-- **C10.** There are rendered page sizes with one side beyond `max_dim`
and the other tiny (here 2001 × 1, with width exceeding `max_dim` times
height) for which the truncation `int(height * scale_factor)` yields 0, so
`image.resize` is invoked with a zero height. -/
theorem convert_resize_zero_dimension_possible :
    ∃ w h : ℕ, 0 < h ∧ 1000 < w ∧ 1000 * h < w ∧
      (resizedDims 1000 w h).2 = 0 ∧ (resizedDims 1000 w h).1 = 1000 := by
  have hres : resizedDims 1000 2001 1 = (1000, 0) := by
    norm_num [resizedDims]
    decide
  exact ⟨2001, 1, by norm_num, by norm_num, by norm_num,
    by rw [hres], by rw [hres]⟩

end PdfScript

namespace DeveloperFactory

/-- **C7.** When the external configuration leaves search disabled,
`SearchToolkit.get_can_use_tools` returns nothing and the search
contribution to the tool list (lines 87-93) is the empty list. -/
theorem search_tools_only_when_enabled (env : ToolkitEnv)
    (hoff : env.searchEnabled = false) :
    searchGetCanUseTools env = [] ∧ searchContribution env = [] := by
  constructor <;> simp [searchGetCanUseTools, searchContribution, hoff]

/-- Witness for C7 on the concrete environment with search disabled. -/
theorem search_tools_only_when_enabled_witness :
    searchGetCanUseTools sampleEnvNoSearch = [] ∧
    searchContribution sampleEnvNoSearch = [] :=
  search_tools_only_when_enabled sampleEnvNoSearch rfl

/-- Wrapping a tool through the message-integration decorator keeps its
name. -/
theorem name_comp_wrapTool : Tool.name ∘ wrapTool = Tool.name :=
  funext fun _ => rfl

/-- Wrapping a tool list through the message-integration decorator keeps
every tool's name. -/
theorem map_name_registerFunctions (l : List Tool) :
    (registerFunctions l).map Tool.name = l.map Tool.name := by
  rw [registerFunctions, List.map_map, name_comp_wrapTool]

/-- The search contribution exposes exactly the names that
`SearchToolkit.get_can_use_tools` returned. -/
theorem map_name_searchContribution (env : ToolkitEnv) :
    (searchContribution env).map Tool.name =
      (searchGetCanUseTools env).map Tool.name := by
  rw [searchContribution]
  rcases hemp : searchGetCanUseTools env with _ | ⟨t, rest⟩
  · simp
  · simp [map_name_registerFunctions]

/-- **C4.** The tool list passed to the agent constructor is exactly the
concatenation, in the preserved source order, of the human toolkit's tools
and each wrapped toolkit's exposed tools plus the search contribution; by
tool name it coincides with the concatenation of the raw toolkit tool
lists, so the message-relay wrapping step introduces no duplicate tools. -/
theorem developer_tools_concatenation (env : ToolkitEnv) :
    developerTools env =
      env.humanTools ++ registerFunctions env.noteTools
        ++ registerFunctions env.webDeployTools
        ++ registerFunctions env.terminalTools
        ++ registerFunctions env.screenshotTools
        ++ registerFunctions env.skillTools
        ++ searchContribution env ∧
    (developerTools env).map Tool.name =
      (env.humanTools ++ env.noteTools ++ env.webDeployTools
        ++ env.terminalTools ++ env.screenshotTools ++ env.skillTools
        ++ searchGetCanUseTools env).map Tool.name ∧
    (((env.humanTools ++ env.noteTools ++ env.webDeployTools
        ++ env.terminalTools ++ env.screenshotTools ++ env.skillTools
        ++ searchGetCanUseTools env).map Tool.name).Nodup →
      ((developerTools env).map Tool.name).Nodup) := by
  have hmap : (developerTools env).map Tool.name =
      (env.humanTools ++ env.noteTools ++ env.webDeployTools
        ++ env.terminalTools ++ env.screenshotTools ++ env.skillTools
        ++ searchGetCanUseTools env).map Tool.name := by
    simp only [developerTools, registerToolkits, List.map_append,
      List.map_map, name_comp_wrapTool, map_name_searchContribution]
  exact ⟨rfl, hmap, fun hnd => hmap ▸ hnd⟩

/-- Witness for C4's no-duplicates part: on the concrete environment, the
raw tool names are distinct and so are the produced tool list's names. -/
theorem developer_tools_concatenation_witness :
    ((developerTools sampleEnv).map Tool.name).Nodup :=
  (developer_tools_concatenation sampleEnv).2.2 (by decide)

/-- Concatenating template pieces renders to the concatenation of their
renderings. -/
theorem renderTemplate_append (a b : List TemplatePart)
    (sys mach wd now : String) :
    renderTemplate (a ++ b) sys mach wd now =
      renderTemplate a sys mach wd now ++ renderTemplate b sys mach wd now := by
  induction a with
  | nil => simp [renderTemplate, String.empty_append]
  | cons p rest ih => simp [renderTemplate, ih, String.append_assoc]

/-- **C8.** The system prompt the factory renders substitutes the runtime
values into the template: at any placeholder occurrence the rendered prompt
is the rendering of the preceding parts, then the substituted value, then
the rendering of the following parts, and each of the four placeholders
renders to the OS name, machine architecture, working directory and
timestamp respectively. -/
theorem rendered_prompt_substitutes_placeholders (options : ChatOptions)
    (env : ToolkitEnv) (a b : List TemplatePart) (p : TemplatePart)
    (sys mach now : String) :
    (developerAgent options env (a ++ p :: b) sys mach now).message.content =
      renderTemplate a sys mach options.workingDirectory now
        ++ renderPart sys mach options.workingDirectory now p
        ++ renderTemplate b sys mach options.workingDirectory now ∧
    renderPart sys mach options.workingDirectory now .phPlatformSystem =
      sys ∧
    renderPart sys mach options.workingDirectory now .phPlatformMachine =
      mach ∧
    renderPart sys mach options.workingDirectory now .phWorkingDirectory =
      options.workingDirectory ∧
    renderPart sys mach options.workingDirectory now .phNowStr = now := by
  refine ⟨?_, rfl, rfl, rfl, rfl⟩
  show renderTemplate (a ++ p :: b) sys mach options.workingDirectory now = _
  rw [renderTemplate_append]
  simp [renderTemplate, String.append_assoc]

/-- **C9.** `developer_agent` calls `agent_model` with the registry key
`Agents.developer_agent`, an assistant message whose role name is
`"Developer Agent"` and whose content is the rendered prompt, the context,
the assembled tool list, the seven toolkit names, and a post-hoc
registration list holding exactly one element: the (unwrapped) screenshot
toolkit instance saved at line 64. -/
theorem developer_agent_constructor_arguments (options : ChatOptions)
    (env : ToolkitEnv) (tpl : List TemplatePart) (sys mach now : String) :
    (developerAgent options env tpl sys mach now).registryKey =
        developerAgentKey ∧
    (developerAgent options env tpl sys mach now).message.roleName =
        "Developer Agent" ∧
    (developerAgent options env tpl sys mach now).message.content =
        renderTemplate tpl sys mach options.workingDirectory now ∧
    (developerAgent options env tpl sys mach now).options = options ∧
    (developerAgent options env tpl sys mach now).tools =
        developerTools env ∧
    (developerAgent options env tpl sys mach now).toolNames =
        [env.humanName, env.terminalName, env.noteName, env.webDeployName,
         env.screenshotName, env.skillName, env.searchName] ∧
    (developerAgent options env tpl sys mach now).toolkitsToRegisterAgent =
        [{ tools := env.screenshotTools }] ∧
    (developerAgent options env tpl sys mach now).toolkitsToRegisterAgent.length = 1 :=
  ⟨rfl, rfl, rfl, rfl, rfl, rfl, rfl, rfl⟩

end DeveloperFactory
